import Mathlib

/-!
Shallow embedding of the Brook.sh identity/session subsystem
(src/server.js, src/authRoutes.js and the unnamed server variants).

JavaScript `Map` objects are modelled as association lists with
unique-key semantics (`mapGet` returns the first binding, `mapSet`
replaces any previous binding, `mapDelete` removes every binding of the
key).  Timestamps (`Date.now()`) are `Int` parameters threaded through
the operations; random values (session ids, session tokens, token
hashes) are likewise parameters, since the claims do not depend on
their distribution.  HTTP handlers become pure functions from the
request body and the current store to a reply value and the new store.
-/

set_option autoImplicit false

namespace Brook

/-- First binding of `key` in the association list (JS `Map.prototype.get`). -/
def mapGet {α : Type} (key : String) (m : List (String × α)) : Option α :=
  match m with
  | [] => none
  | (k, v) :: rest => if k = key then some v else mapGet key rest

/-- Remove every binding of `key` (JS `Map.prototype.delete`). -/
def mapDelete {α : Type} (key : String) (m : List (String × α)) : List (String × α) :=
  m.filter (fun p => p.1 ≠ key)

/-- Bind `key` to `v`, replacing any previous binding (JS `Map.prototype.set`). -/
def mapSet {α : Type} (key : String) (v : α) (m : List (String × α)) :
    List (String × α) :=
  (key, v) :: mapDelete key m

/-- Model of JS `String.prototype.toLowerCase`, restricted to the ASCII usernames and
emails this application handles.  Defined on the character list so the
kernel can evaluate it; `jsToLower_eq_map` identifies it with
`String.map Char.toLower`. -/
def jsToLower (s : String) : String := ⟨s.data.map Char.toLower⟩

/-- A character-list membership test extensionally equal to
`String.contains` (see `strContainsChar_eq`); JS `includes`. -/
def strContainsChar (s : String) (c : Char) : Bool :=
  s.data.any (fun a => a == c)

/-- A character-list `all` extensionally equal to `String.all`
(see `strAllChars_eq`). -/
def strAllChars (s : String) (p : Char → Bool) : Bool :=
  s.data.all p

/-! ## Device sessions (src/server.js lines 20-118) -/

/-- The record stored in the `deviceSessions` map
(src/server.js lines 44-54). -/
structure SessionData where
  uid : Nat
  deviceFingerprint : String
  sessionToken : String
  created : Int
  lastUsed : Int
  rememberDevice : Bool
  expiresAt : Int
deriving Repr, DecidableEq

/-- The global `deviceSessions` map (src/server.js line 21). -/
abbrev SessionStore := List (String × SessionData)

/-- Model of `createDeviceSession(uid, deviceFingerprint, rememberDevice)` from
src/server.js lines 40-66.  `now` stands for `Date.now()`; the random
`sessionId` and `sessionToken` are parameters.  The asynchronous
`cleanupExpiredSessions` scheduled with `setImmediate` is modelled
separately as `cleanupExpiredSessions`. -/
def createDeviceSession (now : Int) (uid : Nat) (deviceFingerprint : String)
    (rememberDevice : Bool) (sessionId sessionToken : String)
    (store : SessionStore) : (String × String) × SessionStore :=
  let sessionData : SessionData :=
    { uid := uid
      deviceFingerprint := deviceFingerprint
      sessionToken := sessionToken
      created := now
      lastUsed := now
      rememberDevice := rememberDevice
      expiresAt := if rememberDevice
        then now + 30 * 24 * 60 * 60 * 1000
        else now + 24 * 60 * 60 * 1000 }
  ((sessionId, sessionToken), mapSet sessionId sessionData store)

/-- Model of `validateDeviceSession(sessionId, sessionToken, deviceFingerprint)` from
src/server.js lines 69-98: returns the session's uid and the updated store
(`lastUsed` refreshed on success; the session deleted on expiry or on a
fingerprint or token mismatch). -/
def validateDeviceSession (now : Int) (sessionId sessionToken deviceFingerprint : String)
    (store : SessionStore) : Option Nat × SessionStore :=
  match mapGet sessionId store with
  | none => (none, store)
  | some session =>
    if now > session.expiresAt then
      (none, mapDelete sessionId store)
    else if session.deviceFingerprint ≠ deviceFingerprint then
      (none, mapDelete sessionId store)
    else if session.sessionToken ≠ sessionToken then
      (none, mapDelete sessionId store)
    else
      (some session.uid, mapSet sessionId { session with lastUsed := now } store)

/-- Model of `cleanupExpiredSessions()` from src/server.js lines 101-113. -/
def cleanupExpiredSessions (now : Int) (store : SessionStore) : SessionStore :=
  store.filter (fun p => ¬ now > p.2.expiresAt)

/-- Model of `revokeDeviceSession(sessionId)` from src/server.js lines 116-118. -/
def revokeDeviceSession (sessionId : String) (store : SessionStore) : SessionStore :=
  mapDelete sessionId store

/-! ## Access tokens (src/server.js lines 176-206) -/

/-- The record stored in the `activeTokens` map (src/server.js line 186). -/
structure TokenData where
  uid : Nat
  created : Int
deriving Repr, DecidableEq

/-- The global `activeTokens` map (src/server.js line 22). -/
abbrev TokenStore := List (String × TokenData)

/-- Model of `generateSecureToken(uid)` from src/server.js lines 176-181: the sha256
hex digest is an opaque random parameter `hash`. -/
def generateSecureToken (hash : String) : String :=
  "brook_" ++ (hash.take 32)

/-- Model of `createUserToken(uid)` from src/server.js lines 184-197: registers the
fresh token, then lazily purges every token created strictly before
`now - 24h`. -/
def createUserToken (now : Int) (uid : Nat) (hash : String) (store : TokenStore) :
    String × TokenStore :=
  let token := generateSecureToken hash
  let store1 := mapSet token { uid := uid, created := now } store
  let oneDayAgo := now - 24 * 60 * 60 * 1000
  (token, store1.filter (fun p => ¬ p.2.created < oneDayAgo))

/-- Model of `validateToken(token)` from src/server.js lines 199-206.  A missing or
empty token is falsy in JS, hence rejected before the map lookup. -/
def validateToken (token : Option String) (store : TokenStore) : Option Nat :=
  match token with
  | none => none
  | some t =>
    if t = "" then none
    else
      match mapGet t store with
      | none => none
      | some tokenData => some tokenData.uid

/-! ## Users, credentials and the API data file (src/server.js) -/

/-- A user profile record from `api-data.json`
(created at src/server.js lines 658-665). -/
structure UserProfile where
  uid : Nat
  username : String
  «alias» : String
  createdAt : String
  profileViews : Nat
  lastUpdated : String
deriving Repr, DecidableEq

/-- A credential record from `api-data.json`
(created at src/server.js lines 667-671). -/
structure Credential where
  uid : Nat
  email : String
  password : String
deriving Repr, DecidableEq

/-- The content of `api-data.json` (src/server.js `loadAPIData`). -/
structure ApiData where
  users : List UserProfile
  credentials : List Credential
deriving Repr, DecidableEq

/-- A JSON reply from one of the auth handlers, reduced to the fields the
claims talk about: the HTTP status, the `error` field and the `username`
field.  `typeError` is the outcome in which the handler threw a
`TypeError` before sending any response (the promise rejects and Express
sends nothing). -/
inductive HttpReply where
  | typeError
  | reply (status : Nat) (error : Option String) (username : Option String)
deriving Repr, DecidableEq

/-- Model of `POST /auth/register` from src/server.js lines 624-699.  The body fields
are `Option String` (`none` = absent).  Line 626 runs
`username.toLowerCase()` before the presence check, so an absent
`username` throws a `TypeError`; an absent `email` or `password` only
shows up as falsy in the presence check.  `nowIso` stands for
`new Date().toISOString()`.  The device session and display token also
created on success live in separate stores and are modelled by
`createDeviceSession` and `createUserToken`. -/
def register (username email password : Option String) (nowIso : String)
    (apiData : ApiData) : HttpReply × ApiData :=
  match username with
  | none => (.typeError, apiData)
  | some u =>
    let usernameNormalized := jsToLower u
    match email, password with
    | some e, some p =>
      if u = "" ∨ e = "" ∨ p = "" then
        (.reply 400 (some "All fields are required") none, apiData)
      else if usernameNormalized.length < 3 ∨ 20 < usernameNormalized.length then
        (.reply 400 (some "Username must be 3-20 characters") none, apiData)
      else if p.length < 6 then
        (.reply 400 (some "Password must be at least 6 characters") none, apiData)
      else if (apiData.users.find? (fun user => user.username = usernameNormalized)).isSome then
        (.reply 400 (some "Username already taken") none, apiData)
      else if (apiData.credentials.find? (fun cred => jsToLower cred.email = jsToLower e)).isSome then
        (.reply 400 (some "Email already registered") none, apiData)
      else
        let newUID := apiData.users.length + 1
        let newUser : UserProfile :=
          { uid := newUID
            username := usernameNormalized
            «alias» := usernameNormalized
            createdAt := nowIso
            profileViews := 0
            lastUpdated := nowIso }
        let newCredential : Credential :=
          { uid := newUID, email := jsToLower e, password := p }
        (.reply 201 none (some newUser.username),
         { users := apiData.users ++ [newUser]
           credentials := apiData.credentials ++ [newCredential] })
    | _, _ =>
      (.reply 400 (some "All fields are required") none, apiData)

/-- Model of `POST /auth/login` from src/server.js lines 566-620, reduced to the reply
fields the claims talk about.  The handler never mutates `api-data.json`;
the device session and token created on success are modelled by
`createDeviceSession` and `createUserToken`. -/
def login (email password : Option String) (apiData : ApiData) : HttpReply :=
  match email, password with
  | some e, some p =>
    if e = "" ∨ p = "" then
      .reply 400 (some "Email and password are required") none
    else
      match apiData.credentials.find? (fun c => jsToLower c.email = jsToLower e) with
      | none => .reply 400 (some "Invalid email or password") none
      | some userCredential =>
        if userCredential.password ≠ p then
          .reply 400 (some "Invalid email or password") none
        else
          match apiData.users.find? (fun u => u.uid = userCredential.uid) with
          | none => .reply 400 (some "User profile not found") none
          | some user => .reply 200 none (some user.username)
  | _, _ => .reply 400 (some "Email and password are required") none

/-! ## Profile pages (src/server.js lines 766-961) -/

/-- Outcome of `GET /:username`: the static/reserved-route guard's bare 404,
the "User not found" 404 page, or the rendered profile page (recording the
alias and the view count it displays). -/
inductive ProfileOutcome where
  | notFoundSkip
  | notFoundHtml (username : String)
  | page («alias» : String) (views : Nat)
deriving Repr, DecidableEq

/-- The raw path segments `GET /:username` refuses to treat as profiles
(src/server.js line 771). -/
def skipNames : List String := ["auth", "user", "login", "data", "account", "api"]

/-- Replace the first element satisfying `p` by its image under `f`
(the in-place mutation of the found array element in JS). -/
def updateFirst {α : Type} (p : α → Bool) (f : α → α) : List α → List α
  | [] => []
  | x :: xs => if p x then f x :: xs else x :: updateFirst p f xs

/-- Model of `GET /:username` from src/server.js lines 766-961: skip static files and
reserved routes (checked on the raw parameter), look the user up by the
lowercased name, and on a hit increment `profileViews`, refresh
`lastUpdated` and render the page. -/
def getProfile (username : String) (nowIso : String) (apiData : ApiData) :
    ProfileOutcome × ApiData :=
  let usernameNormalized := jsToLower username
  if strContainsChar username '.' ∨ username ∈ skipNames then
    (.notFoundSkip, apiData)
  else
    match apiData.users.find? (fun u => u.username = usernameNormalized) with
    | none => (.notFoundHtml usernameNormalized, apiData)
    | some user =>
      let bump := fun (u : UserProfile) =>
        { u with profileViews := u.profileViews + 1, lastUpdated := nowIso }
      ((.page user.«alias» (user.profileViews + 1)),
       { apiData with
          users := updateFirst (fun u => u.username = usernameNormalized) bump apiData.users })

/-! ## Logout (src/server.js lines 1025-1047) -/

/-- The JSON body `POST /auth/logout` replies with. -/
structure LogoutReply where
  success : Bool
  message : String
deriving Repr, DecidableEq

/-- Model of `POST /auth/logout` from src/server.js lines 1025-1047.  When `sessionId`
is truthy the handler deletes that device session and then loops over
`activeTokens` deleting every entry; the reply is `success: true` in every
case. -/
def logout (sessionId : Option String) (sessions : SessionStore) (tokens : TokenStore) :
    LogoutReply × SessionStore × TokenStore :=
  match sessionId with
  | some sid =>
    if sid = "" then
      ({ success := true, message := "Logged out successfully" }, sessions, tokens)
    else
      ({ success := true, message := "Logged out successfully" },
       mapDelete sid sessions, [])
  | none => ({ success := true, message := "Logged out successfully" }, sessions, tokens)

/-! ## The Mongo/Mongoose register variant (src/authRoutes.js lines 10-90) -/

/-- A character allowed by the username regex `/^[a-zA-Z0-9_-]+$/`. -/
def allowedChar (c : Char) : Bool :=
  ('a' ≤ c ∧ c ≤ 'z') ∨ ('A' ≤ c ∧ c ≤ 'Z') ∨ ('0' ≤ c ∧ c ≤ '9') ∨ c = '_' ∨ c = '-'

/-- The regex test `/^[a-zA-Z0-9_-]+$/.test(s)`. -/
def usernameCharsetOk (s : String) : Bool :=
  s ≠ "" ∧ strAllChars s allowedChar

/-- The reserved-name deny-list of src/authRoutes.js line 31. -/
def reservedUsernames : List String :=
  ["admin", "api", "www", "mail", "ftp", "login", "register", "auth", "user"]

/-- The reserved-name deny-list of the `GET /auth/check-username` endpoint
(src/server.js line 717). -/
def reservedUsernamesServer : List String :=
  ["admin", "api", "www", "mail", "ftp", "login", "register", "auth", "user", "data", "account"]

/-- A user document of the Mongoose variant (src/authRoutes.js lines 60-65). -/
structure MongoUser where
  username : String
  displayName : String
  email : String
  password : String
deriving Repr, DecidableEq

/-- Model of `POST /register` from src/authRoutes.js lines 10-90.  The bcrypt hash of
the password is the opaque parameter `hashedPassword`; the Mongo `$or`
duplicate query becomes a `find?` over the user list. -/
def registerAuthRoutes (username email password : Option String)
    (hashedPassword : String) (users : List MongoUser) :
    HttpReply × List MongoUser :=
  match username, email, password with
  | some u, some e, some p =>
    if u = "" ∨ e = "" ∨ p = "" then
      (.reply 400 (some "All fields are required") none, users)
    else if u.length < 3 ∨ 20 < u.length then
      (.reply 400 (some "Username must be 3-20 characters") none, users)
    else if ¬ usernameCharsetOk u then
      (.reply 400 (some "Username can only contain letters, numbers, hyphens, and underscores") none, users)
    else if jsToLower u ∈ reservedUsernames then
      (.reply 400 (some "Username is reserved") none, users)
    else if p.length < 6 then
      (.reply 400 (some "Password must be at least 6 characters") none, users)
    else
      match users.find? (fun usr => usr.email = jsToLower e ∨ usr.username = jsToLower u) with
      | some existingUser =>
        (.reply 400
          (some (if existingUser.email = jsToLower e
                 then "Email already registered" else "Username already taken")) none,
         users)
      | none =>
        let newUser : MongoUser :=
          { username := jsToLower u
            displayName := u
            email := jsToLower e
            password := hashedPassword }
        (.reply 201 none (some newUser.username), users ++ [newUser])
  | _, _, _ =>
    (.reply 400 (some "All fields are required") none, users)

/-! ## The data-level string helpers agree with the `String` API -/

theorem jsToLower_eq_map (s : String) : jsToLower s = s.map Char.toLower := by
  rw [String.map_eq]; rfl

theorem strContainsChar_eq (s : String) (c : Char) :
    strContainsChar s c = s.contains c := by
  rw [String.contains, String.any_eq, strContainsChar]

theorem strAllChars_eq (s : String) (p : Char → Bool) :
    strAllChars s p = s.all p := by
  rw [String.all_eq, strAllChars]

/-! ## Basic lemmas about the map model -/

theorem mapGet_mapDelete_self {α : Type} (key : String) (m : List (String × α)) :
    mapGet key (mapDelete key m) = none := by
  induction m with
  | nil => rfl
  | cons p rest ih =>
    by_cases h : p.1 = key
    · simpa [mapDelete, List.filter_cons, h] using ih
    · simpa [mapDelete, List.filter_cons, h, mapGet] using ih

theorem mapGet_mapSet_self {α : Type} (key : String) (v : α) (m : List (String × α)) :
    mapGet key (mapSet key v m) = some v := by
  simp [mapSet, mapGet]

theorem mapDelete_mapDelete_self {α : Type} (key : String) (m : List (String × α)) :
    mapDelete key (mapDelete key m) = mapDelete key m := by
  simp [mapDelete, List.filter_filter]

/-! ## C1 -/

theorem validateDeviceSession_eq_of_get (now : Int)
    (sessionId sessionToken deviceFingerprint : String) (store : SessionStore)
    (s : SessionData) (h : mapGet sessionId store = some s) :
    validateDeviceSession now sessionId sessionToken deviceFingerprint store =
      if now > s.expiresAt ∨ s.deviceFingerprint ≠ deviceFingerprint ∨
          s.sessionToken ≠ sessionToken
      then (none, mapDelete sessionId store)
      else (some s.uid, mapSet sessionId { s with lastUsed := now } store) := by
  simp only [validateDeviceSession, h]
  by_cases h1 : now > s.expiresAt
  · simp [h1]
  · by_cases h2 : s.deviceFingerprint = deviceFingerprint
    · by_cases h3 : s.sessionToken = sessionToken
      · simp [h1, h2, h3]
      · simp [h1, h2, h3]
    · simp [h1, h2]

/-- C1: the function `validateDeviceSession` returns a uid exactly when a session with
that id exists, is not expired, and its stored fingerprint and session
token both equal the supplied values; if the session exists but any one
of {expired, fingerprint mismatch, token mismatch} holds, the call
returns none and removes that session from the store. -/
theorem validateDeviceSession_spec (now : Int)
    (sessionId sessionToken deviceFingerprint : String) (store : SessionStore) :
    ((validateDeviceSession now sessionId sessionToken deviceFingerprint store).1.isSome ↔
      ∃ s, mapGet sessionId store = some s ∧ ¬ now > s.expiresAt ∧
        s.deviceFingerprint = deviceFingerprint ∧ s.sessionToken = sessionToken)
    ∧ (∀ s, mapGet sessionId store = some s → ¬ now > s.expiresAt →
        s.deviceFingerprint = deviceFingerprint → s.sessionToken = sessionToken →
        (validateDeviceSession now sessionId sessionToken deviceFingerprint store).1 =
          some s.uid)
    ∧ (∀ s, mapGet sessionId store = some s →
        now > s.expiresAt ∨ s.deviceFingerprint ≠ deviceFingerprint ∨
          s.sessionToken ≠ sessionToken →
        validateDeviceSession now sessionId sessionToken deviceFingerprint store =
          (none, mapDelete sessionId store) ∧
        mapGet sessionId
          (validateDeviceSession now sessionId sessionToken deviceFingerprint store).2 =
          none) := by
  cases h : mapGet sessionId store with
  | none =>
    refine ⟨?_, ?_, ?_⟩
    · simp [validateDeviceSession, h]
    · intro s hs; exact Option.noConfusion hs
    · intro s hs; exact Option.noConfusion hs
  | some s =>
    rw [validateDeviceSession_eq_of_get now sessionId sessionToken deviceFingerprint store s h]
    by_cases hbad : now > s.expiresAt ∨ s.deviceFingerprint ≠ deviceFingerprint ∨
        s.sessionToken ≠ sessionToken
    · refine ⟨?_, ?_, ?_⟩
      · rw [if_pos hbad]
        refine ⟨fun hc => by simp at hc, ?_⟩
        rintro ⟨s', hs', hexp, hfp, htok⟩
        injection hs' with hss; subst hss
        rcases hbad with hb | hb | hb
        · exact absurd hb hexp
        · exact absurd hfp hb
        · exact absurd htok hb
      · intro s' hs' hexp hfp htok
        injection hs' with hss; subst hss
        rcases hbad with hb | hb | hb
        · exact absurd hb hexp
        · exact absurd hfp hb
        · exact absurd htok hb
      · intro s' hs' _
        rw [if_pos hbad]
        exact ⟨rfl, mapGet_mapDelete_self sessionId store⟩
    · have hexp : ¬ now > s.expiresAt := fun hc => hbad (Or.inl hc)
      have hfp : s.deviceFingerprint = deviceFingerprint := by
        by_contra hc; exact hbad (Or.inr (Or.inl hc))
      have htok : s.sessionToken = sessionToken := by
        by_contra hc; exact hbad (Or.inr (Or.inr hc))
      refine ⟨?_, ?_, ?_⟩
      · rw [if_neg hbad]
        exact ⟨fun _ => ⟨s, rfl, hexp, hfp, htok⟩, fun _ => rfl⟩
      · intro s' hs' _ _ _
        injection hs' with hss; subst hss
        rw [if_neg hbad]
      · intro s' hs' hb
        injection hs' with hss; subst hss
        exact absurd hb hbad

/-- Witness for C1 at a concrete store: a matching, unexpired session
validates to its uid. -/
theorem validateDeviceSession_spec_witness :
    (validateDeviceSession 5 "sid" "tok" "fp"
        [("sid", ⟨7, "fp", "tok", 0, 0, false, 100⟩)]).1 = some 7 :=
  (validateDeviceSession_spec 5 "sid" "tok" "fp"
      [("sid", ⟨7, "fp", "tok", 0, 0, false, 100⟩)]).2.1
    ⟨7, "fp", "tok", 0, 0, false, 100⟩ rfl (by decide) rfl rfl

/-! ## C2 -/

/-- C2: a session created by `createDeviceSession` expires at the creation
time plus 24 hours when `rememberDevice` is false and plus 30 days when
it is true; and validating any session whose `expiresAt` is strictly
before the current time returns none and deletes the entry. -/
theorem createDeviceSession_expiry (now : Int) (uid : Nat)
    (deviceFingerprint : String) (rememberDevice : Bool)
    (sessionId sessionToken : String) (store : SessionStore) :
    (∃ s, mapGet sessionId
        (createDeviceSession now uid deviceFingerprint rememberDevice
          sessionId sessionToken store).2 = some s ∧
      s.expiresAt = if rememberDevice
        then now + 30 * 24 * 60 * 60 * 1000
        else now + 24 * 60 * 60 * 1000)
    ∧ (∀ (now2 : Int) (sid tok fp : String) (store2 : SessionStore) (s : SessionData),
        mapGet sid store2 = some s → s.expiresAt < now2 →
        validateDeviceSession now2 sid tok fp store2 = (none, mapDelete sid store2) ∧
        mapGet sid (validateDeviceSession now2 sid tok fp store2).2 = none) := by
  constructor
  · exact ⟨_, mapGet_mapSet_self sessionId _ store, rfl⟩
  · intro now2 sid tok fp store2 s hs hexp
    constructor
    · simp [validateDeviceSession, hs, hexp]
    · simp [validateDeviceSession, hs, hexp, mapGet_mapDelete_self]

/-- Witness for C2: a concrete expired session is purged by validation. -/
theorem createDeviceSession_expiry_witness :
    validateDeviceSession 200 "sid" "tok" "fp"
        [("sid", ⟨7, "fp", "tok", 0, 0, false, 100⟩)] = (none, []) := by
  have h := ((createDeviceSession_expiry 0 7 "fp" false "s" "t" []).2
    200 "sid" "tok" "fp" [("sid", ⟨7, "fp", "tok", 0, 0, false, 100⟩)]
    ⟨7, "fp", "tok", 0, 0, false, 100⟩ rfl (by decide)).1
  rw [h]; rfl

/-! ## C6 -/

/-- C6: the 400 reply for an unknown email and the 400 reply for a known
email with a wrong password carry the identical body
`Invalid email or password`, so the error text does not reveal whether an
email is registered. -/
theorem login_error_indistinguishable (d1 d2 : ApiData) (e1 p1 e2 p2 : String)
    (cred : Credential)
    (he1 : e1 ≠ "") (hp1 : p1 ≠ "") (he2 : e2 ≠ "") (hp2 : p2 ≠ "")
    (h1 : d1.credentials.find? (fun c => jsToLower c.email = jsToLower e1) = none)
    (h2 : d2.credentials.find? (fun c => jsToLower c.email = jsToLower e2) = some cred)
    (h3 : cred.password ≠ p2) :
    login (some e1) (some p1) d1 = login (some e2) (some p2) d2 ∧
    login (some e1) (some p1) d1 = .reply 400 (some "Invalid email or password") none := by
  have ha : login (some e1) (some p1) d1 =
      .reply 400 (some "Invalid email or password") none := by
    simp [login, he1, hp1, h1]
  have hb : login (some e2) (some p2) d2 =
      .reply 400 (some "Invalid email or password") none := by
    simp [login, he2, hp2, h2, h3]
  exact ⟨ha.trans hb.symm, ha⟩

/-- Witness for C6: unknown email against one store and wrong password
against another produce the same reply. -/
theorem login_error_indistinguishable_witness :
    login (some "b@x.com") (some "pw1234") (⟨[], []⟩ : ApiData) =
      login (some "a@x.com") (some "wrong1") ⟨[], [⟨1, "a@x.com", "secret1"⟩]⟩ :=
  (login_error_indistinguishable ⟨[], []⟩ ⟨[], [⟨1, "a@x.com", "secret1"⟩]⟩
    "b@x.com" "pw1234" "a@x.com" "wrong1" ⟨1, "a@x.com", "secret1"⟩
    (by decide) (by decide) (by decide) (by decide) rfl (by decide) (by decide)).1

/-! ## C7 -/

/-- C7: after `createUserToken`, no token created strictly more than
24 hours before the current time remains in the active-token map, the
returned token maps to the given uid, and `validateToken` is the plain
lookup: it returns the stored uid, or none when the token is absent. -/
theorem createUserToken_spec (now : Int) (uid : Nat) (hash : String) (store : TokenStore) :
    (∀ p ∈ (createUserToken now uid hash store).2,
        ¬ p.2.created < now - 24 * 60 * 60 * 1000)
    ∧ mapGet (createUserToken now uid hash store).1 (createUserToken now uid hash store).2 =
        some { uid := uid, created := now }
    ∧ validateToken (some (createUserToken now uid hash store).1)
        (createUserToken now uid hash store).2 = some uid
    ∧ (∀ (t : String) (s : TokenStore), t ≠ "" →
        (mapGet t s = none → validateToken (some t) s = none) ∧
        (∀ d, mapGet t s = some d → validateToken (some t) s = some d.uid)) := by
  have hhead : ¬ ((now : Int) < now - 24 * 60 * 60 * 1000) := by omega
  have htok : generateSecureToken hash ≠ "" := by
    intro hempty
    have hlen := congrArg String.length hempty
    rw [generateSecureToken, String.length_append] at hlen
    have h6 : ("brook_" : String).length = 6 := by decide
    rw [h6] at hlen
    simp at hlen
  have hget : mapGet (createUserToken now uid hash store).1
      (createUserToken now uid hash store).2 = some { uid := uid, created := now } := by
    simp [createUserToken, mapSet, List.filter_cons, hhead, mapGet]
  have hlookup : ∀ (t : String) (s : TokenStore), t ≠ "" →
      (mapGet t s = none → validateToken (some t) s = none) ∧
      (∀ d, mapGet t s = some d → validateToken (some t) s = some d.uid) := by
    intro t s ht
    constructor
    · intro hnone; simp [validateToken, ht, hnone]
    · intro d hd; simp [validateToken, ht, hd]
  refine ⟨?_, hget, ?_, hlookup⟩
  · intro p hp
    simp only [createUserToken] at hp
    simpa using (List.mem_filter.mp hp).2
  · exact (hlookup _ _ htok).2 _ hget

/-- Witness for C7: a concrete stored token validates to its uid and an
absent token validates to none. -/
theorem createUserToken_spec_witness :
    validateToken (some "x") [("x", ⟨9, 0⟩)] = some 9 ∧
    validateToken (some "y") [("x", ⟨9, 0⟩)] = none :=
  ⟨((createUserToken_spec 0 1 "h" []).2.2.2 "x" [("x", ⟨9, 0⟩)] (by decide)).2
      ⟨9, 0⟩ rfl,
   ((createUserToken_spec 0 1 "h" []).2.2.2 "y" [("x", ⟨9, 0⟩)] (by decide)).1 rfl⟩

/-! ## C8 -/

/-- C8: the function `revokeDeviceSession` is idempotent and unconditional, and
`POST /auth/logout` replies `success: true` for every request body and
store state, whether or not the session exists. -/
theorem revokeDeviceSession_idempotent (sessionId : String) (store : SessionStore) :
    revokeDeviceSession sessionId (revokeDeviceSession sessionId store) =
        revokeDeviceSession sessionId store
    ∧ (∀ (sid : Option String) (sessions : SessionStore) (tokens : TokenStore),
        (logout sid sessions tokens).1.success = true) := by
  constructor
  · exact mapDelete_mapDelete_self sessionId store
  · intro sid sessions tokens
    cases sid with
    | none => rfl
    | some sid' =>
      by_cases h : sid' = "" <;> simp [logout, h]

/-! ## C10 -/

/-- C10: a logout with any non-empty sessionId empties the whole
access-token map — tokens of every user and session — so afterwards no
access token validates. -/
theorem logout_clears_all_tokens (sid : String) (sessions : SessionStore)
    (tokens : TokenStore) (h : sid ≠ "") :
    (logout (some sid) sessions tokens).2.2 = [] ∧
    ∀ t, validateToken t (logout (some sid) sessions tokens).2.2 = none := by
  have hlog : logout (some sid) sessions tokens =
      (⟨true, "Logged out successfully"⟩, mapDelete sid sessions, []) := by
    simp [logout, h]
  rw [hlog]
  refine ⟨rfl, ?_⟩
  intro t
  cases t with
  | none => rfl
  | some t' =>
    by_cases ht : t' = "" <;> simp [validateToken, ht, mapGet]

/-- Witness for C10: a concrete logout wipes a token map holding tokens of
two different users. -/
theorem logout_clears_all_tokens_witness :
    (logout (some "sid1") [("sid1", ⟨1, "f", "t", 0, 0, false, 9⟩)]
        [("tokA", ⟨1, 0⟩), ("tokB", ⟨2, 0⟩)]).2.2 = [] :=
  (logout_clears_all_tokens "sid1" [("sid1", ⟨1, "f", "t", 0, 0, false, 9⟩)]
    [("tokA", ⟨1, 0⟩), ("tokB", ⟨2, 0⟩)] (by decide)).1

/-! ## Shape lemmas for the src/server.js register handler -/

theorem register_success (u e p iso : String) (d : ApiData)
    (hu : u ≠ "") (he : e ≠ "")
    (hlen : ¬ ((jsToLower u).length < 3 ∨ 20 < (jsToLower u).length))
    (hp : ¬ p.length < 6)
    (hnouser : d.users.find? (fun user => user.username = jsToLower u) = none)
    (hnoemail : d.credentials.find? (fun cred => jsToLower cred.email = jsToLower e) = none) :
    register (some u) (some e) (some p) iso d =
      (.reply 201 none (some (jsToLower u)),
       ⟨d.users ++ [⟨d.users.length + 1, jsToLower u, jsToLower u, iso, 0, iso⟩],
        d.credentials ++ [⟨d.users.length + 1, jsToLower e, p⟩]⟩) := by
  have hp' : p ≠ "" := by
    intro hpe; rw [hpe] at hp; exact hp (by decide)
  have hcond : ¬ (u = "" ∨ e = "" ∨ p = "") := by
    push_neg; exact ⟨hu, he, hp'⟩
  simp [register, hcond, hlen, hp, hnouser, hnoemail]

theorem register_username_taken (u e p iso : String) (d : ApiData)
    (hu : u ≠ "") (he : e ≠ "")
    (hlen : ¬ ((jsToLower u).length < 3 ∨ 20 < (jsToLower u).length))
    (hp : ¬ p.length < 6)
    (htaken : (d.users.find? (fun user => user.username = jsToLower u)).isSome = true) :
    register (some u) (some e) (some p) iso d =
      (.reply 400 (some "Username already taken") none, d) := by
  have hp' : p ≠ "" := by
    intro hpe; rw [hpe] at hp; exact hp (by decide)
  have hcond : ¬ (u = "" ∨ e = "" ∨ p = "") := by
    push_neg; exact ⟨hu, he, hp'⟩
  simp [register, hcond, hlen, hp, htaken]

/-! ## C4 -/

/-- C4 (exhibiting the code bug): a register request whose body has no
`username` throws a `TypeError` at `username.toLowerCase()` before the
`All fields are required` presence check can run, so no 400 reply is
produced; no Profile or Credential is created. -/
theorem register_missing_username_typeError :
    register none (some "a@x.com") (some "secret1") "2024-01-01T00:00:00.000Z"
        ⟨[], []⟩ = (.typeError, ⟨[], []⟩) := rfl

/-! ## C5 -/

/-- C5: starting from a store without the username, registering it twice
with usernames equal up to case (distinct unused emails, both requests
otherwise valid) yields one 201 whose username is the lowercased form,
then one 400 `Username already taken` that leaves the store unchanged,
and exactly one profile is created. -/
theorem register_case_insensitive_conflict
    (u1 u2 e1 e2 p1 p2 iso1 iso2 : String) (d : ApiData)
    (hu : jsToLower u1 = jsToLower u2)
    (hu1 : u1 ≠ "") (hu2 : u2 ≠ "")
    (he1 : e1 ≠ "") (he2 : e2 ≠ "")
    (hlen : ¬ ((jsToLower u1).length < 3 ∨ 20 < (jsToLower u1).length))
    (hp1 : ¬ p1.length < 6) (hp2 : ¬ p2.length < 6)
    (hnouser : d.users.find? (fun user => user.username = jsToLower u1) = none)
    (hnoe1 : d.credentials.find? (fun cred => jsToLower cred.email = jsToLower e1) = none) :
    (register (some u1) (some e1) (some p1) iso1 d).1 =
        .reply 201 none (some (jsToLower u1))
    ∧ register (some u2) (some e2) (some p2) iso2
        (register (some u1) (some e1) (some p1) iso1 d).2 =
        (.reply 400 (some "Username already taken") none,
         (register (some u1) (some e1) (some p1) iso1 d).2)
    ∧ (register (some u1) (some e1) (some p1) iso1 d).2.users.length =
        d.users.length + 1 := by
  have hr1 := register_success u1 e1 p1 iso1 d hu1 he1 hlen hp1 hnouser hnoe1
  have hlen2 : ¬ ((jsToLower u2).length < 3 ∨ 20 < (jsToLower u2).length) := by
    rw [← hu]; exact hlen
  have htaken : (((register (some u1) (some e1) (some p1) iso1 d).2).users.find?
      (fun user => user.username = jsToLower u2)).isSome = true := by
    rw [hr1]
    rw [List.find?_append]
    have hnone : d.users.find? (fun user => user.username = jsToLower u2) = none := by
      rw [← hu]; exact hnouser
    rw [hnone]
    rw [List.find?_cons_of_pos _ (by simp [hu])]
    rfl
  refine ⟨by rw [hr1], ?_, by rw [hr1]; simp⟩
  exact register_username_taken u2 e2 p2 iso2 _ hu2 he2 hlen2 hp2 htaken

/-- Witness for C5: registering "ada" then "ADA" on an empty store. -/
theorem register_case_insensitive_conflict_witness :
    (register (some "ada") (some "a@x.com") (some "secret1") "t1" ⟨[], []⟩).1 =
        .reply 201 none (some (jsToLower "ada"))
    ∧ register (some "ADA") (some "b@x.com") (some "secret1") "t2"
        (register (some "ada") (some "a@x.com") (some "secret1") "t1" ⟨[], []⟩).2 =
        (.reply 400 (some "Username already taken") none,
         (register (some "ada") (some "a@x.com") (some "secret1") "t1" ⟨[], []⟩).2)
    ∧ (register (some "ada") (some "a@x.com") (some "secret1") "t1" ⟨[], []⟩).2.users.length =
        (⟨[], []⟩ : ApiData).users.length + 1 :=
  register_case_insensitive_conflict "ada" "ADA" "a@x.com" "b@x.com"
    "secret1" "secret1" "t1" "t2" ⟨[], []⟩ (by decide) (by decide) (by decide)
    (by decide) (by decide) (by decide) (by decide) (by decide) rfl rfl

/-! ## Lowercase and charset facts about `Char.toLower` -/

/-- No character of a lowercased string is an ASCII capital letter. -/
def noUpperChar (c : Char) : Bool := ¬ ('A' ≤ c ∧ c ≤ 'Z')

/-- A character that is both lowercase (no A-Z) and inside the allowed
charset `[a-zA-Z0-9_-]`, i.e. inside `[a-z0-9_-]`. -/
def lowerAllowedChar (c : Char) : Bool :=
  ('a' ≤ c ∧ c ≤ 'z') ∨ ('0' ≤ c ∧ c ≤ '9') ∨ c = '_' ∨ c = '-'

theorem char_toNat_ofNat_valid (n : Nat) (h : n.isValidChar) :
    (Char.ofNat n).toNat = n := by
  simp only [Char.ofNat, dif_pos h]
  simp [Char.ofNatAux, Char.toNat, UInt32.toNat, BitVec.toNat_ofNatLt]

theorem char_le_iff (a b : Char) : a ≤ b ↔ a.toNat ≤ b.toNat := by
  rw [Char.le_def]; rfl

theorem toLower_noUpper (c : Char) : noUpperChar (Char.toLower c) = true := by
  have hA : ('A' : Char).toNat = 65 := rfl
  have hZ : ('Z' : Char).toNat = 90 := rfl
  simp only [noUpperChar, decide_eq_true_eq]
  simp only [Char.toLower]
  by_cases h : c.toNat ≥ 65 ∧ c.toNat ≤ 90
  · rw [if_pos h]
    have hv : (c.toNat + 32).isValidChar := by
      unfold Nat.isValidChar; omega
    have ht := char_toNat_ofNat_valid _ hv
    rintro ⟨h1, h2⟩
    rw [char_le_iff] at h1 h2
    omega
  · rw [if_neg h]
    rintro ⟨h1, h2⟩
    rw [char_le_iff] at h1 h2
    exact h ⟨by omega, by omega⟩

theorem toLower_lowerAllowed (c : Char) (h : allowedChar c = true) :
    lowerAllowedChar (Char.toLower c) = true := by
  have ha : ('a' : Char).toNat = 97 := rfl
  have hz : ('z' : Char).toNat = 122 := rfl
  have hA : ('A' : Char).toNat = 65 := rfl
  have hZ : ('Z' : Char).toNat = 90 := rfl
  have h0 : ('0' : Char).toNat = 48 := rfl
  have h9 : ('9' : Char).toNat = 57 := rfl
  simp only [allowedChar, decide_eq_true_eq] at h
  simp only [lowerAllowedChar, decide_eq_true_eq]
  rcases h with ⟨h1, h2⟩ | ⟨h1, h2⟩ | ⟨h1, h2⟩ | h | h
  · rw [char_le_iff] at h1 h2
    have hcond : ¬ (c.toNat ≥ 65 ∧ c.toNat ≤ 90) := by omega
    simp only [Char.toLower, if_neg hcond]
    exact Or.inl ⟨by rw [char_le_iff]; omega, by rw [char_le_iff]; omega⟩
  · rw [char_le_iff] at h1 h2
    have hcond : c.toNat ≥ 65 ∧ c.toNat ≤ 90 := by omega
    simp only [Char.toLower, if_pos hcond]
    have hv : (c.toNat + 32).isValidChar := by
      unfold Nat.isValidChar; omega
    have ht := char_toNat_ofNat_valid _ hv
    exact Or.inl ⟨by rw [char_le_iff]; omega, by rw [char_le_iff]; omega⟩
  · rw [char_le_iff] at h1 h2
    have hcond : ¬ (c.toNat ≥ 65 ∧ c.toNat ≤ 90) := by omega
    simp only [Char.toLower, if_neg hcond]
    exact Or.inr (Or.inl ⟨by rw [char_le_iff]; omega, by rw [char_le_iff]; omega⟩)
  · subst h; decide
  · subst h; decide

theorem jsToLower_length (s : String) : (jsToLower s).length = s.length := by
  show (s.data.map Char.toLower).length = s.data.length
  exact List.length_map s.data Char.toLower

theorem jsToLower_noUpper (s : String) :
    strAllChars (jsToLower s) noUpperChar = true := by
  simp only [strAllChars, jsToLower, List.all_map, List.all_eq_true]
  intro c _
  exact toLower_noUpper c

theorem jsToLower_lowerAllowed (s : String)
    (h : strAllChars s allowedChar = true) :
    strAllChars (jsToLower s) lowerAllowedChar = true := by
  simp only [strAllChars, jsToLower, List.all_map, List.all_eq_true] at h ⊢
  intro c hc
  exact toLower_lowerAllowed c (h c hc)

/-! ## C3 -/

set_option maxRecDepth 4000 in
/-- C3 counterexample: in src/server.js, POST /auth/register accepts both
the reserved username "admin" and the charset-violating username "a!a"
with a 201, instead of rejecting them with a 400 validation error: the
charset and reserved-name checks exist only in GET /auth/check-username
(src/server.js lines 713-720), not in the register handler. -/
theorem register_no_charset_or_reserved_check :
    (register (some "admin") (some "a@x.com") (some "secret1") "t" ⟨[], []⟩).1 =
        .reply 201 none (some "admin")
    ∧ "admin" ∈ reservedUsernamesServer
    ∧ (register (some "a!a") (some "b@x.com") (some "secret1") "t" ⟨[], []⟩).1 =
        .reply 201 none (some "a!a")
    ∧ usernameCharsetOk "a!a" = false := by decide

/-- C3 (amended): in the src/authRoutes.js variant every successful (201)
registration returns a username of 3-20 characters drawn from the
lowercase charset `[a-z0-9_-]`, and a username failing the charset test
or lying on the reserved-name list is always rejected with a 400
validation error that leaves the store unchanged; the src/server.js
variant guarantees on success only that the returned username is
lowercase and 3-20 characters, since its register handler performs no
charset or reserved-name check. -/
theorem register_username_validity :
    (∀ (u : String) (e p : Option String) (hash : String) (users : List MongoUser)
        (err : Option String) (v : String),
      (registerAuthRoutes (some u) e p hash users).1 = .reply 201 err (some v) →
      3 ≤ v.length ∧ v.length ≤ 20 ∧ strAllChars v lowerAllowedChar = true)
    ∧ (∀ (u : String) (e p : Option String) (hash : String) (users : List MongoUser),
      usernameCharsetOk u = false ∨ jsToLower u ∈ reservedUsernames →
      ∃ msg, registerAuthRoutes (some u) e p hash users =
        (.reply 400 (some msg) none, users))
    ∧ (∀ (u : String) (e p : Option String) (iso : String) (d : ApiData)
        (err : Option String) (v : String),
      (register (some u) e p iso d).1 = .reply 201 err (some v) →
      3 ≤ v.length ∧ v.length ≤ 20 ∧ strAllChars v noUpperChar = true) := by
  refine ⟨?_, ?_, ?_⟩
  · intro u e p hash users err v h
    cases e with
    | none => simp [registerAuthRoutes] at h
    | some e' =>
      cases p with
      | none => simp [registerAuthRoutes] at h
      | some p' =>
        by_cases hc1 : u = "" ∨ e' = "" ∨ p' = ""
        · simp [registerAuthRoutes, hc1] at h
        · by_cases hc2 : u.length < 3 ∨ 20 < u.length
          · simp [registerAuthRoutes, hc1, hc2] at h
          · cases hcs : usernameCharsetOk u with
            | false => simp [registerAuthRoutes, hc1, hc2, hcs] at h
            | true =>
              by_cases hres : jsToLower u ∈ reservedUsernames
              · simp [registerAuthRoutes, hc1, hc2, hcs, hres] at h
              · by_cases hc5 : p'.length < 6
                · simp [registerAuthRoutes, hc1, hc2, hcs, hres, hc5] at h
                · cases hfind : users.find?
                      (fun usr => decide (usr.email = jsToLower e') ||
                        decide (usr.username = jsToLower u)) with
                  | some w =>
                    simp [registerAuthRoutes, hc1, hc2, hcs, hres, hc5, hfind] at h
                  | none =>
                    simp [registerAuthRoutes, hc1, hc2, hcs, hres, hc5, hfind] at h
                    obtain ⟨-, hv⟩ := h
                    have hall : strAllChars u allowedChar = true := by
                      simp [usernameCharsetOk] at hcs
                      exact hcs.2
                    push_neg at hc2
                    refine ⟨?_, ?_, ?_⟩
                    · rw [← hv, jsToLower_length]; omega
                    · rw [← hv, jsToLower_length]; omega
                    · rw [← hv]; exact jsToLower_lowerAllowed u hall
  · intro u e p hash users hbad
    cases e with
    | none =>
      refine ⟨"All fields are required", ?_⟩
      cases p <;> simp [registerAuthRoutes]
    | some e' =>
      cases p with
      | none =>
        refine ⟨"All fields are required", ?_⟩
        simp [registerAuthRoutes]
      | some p' =>
        by_cases hc1 : u = "" ∨ e' = "" ∨ p' = ""
        · exact ⟨"All fields are required", by simp [registerAuthRoutes, hc1]⟩
        · by_cases hc2 : u.length < 3 ∨ 20 < u.length
          · exact ⟨"Username must be 3-20 characters",
              by simp [registerAuthRoutes, hc1, hc2]⟩
          · cases hcs : usernameCharsetOk u with
            | false =>
              exact ⟨"Username can only contain letters, numbers, hyphens, and underscores",
                by simp [registerAuthRoutes, hc1, hc2, hcs]⟩
            | true =>
              have hres : jsToLower u ∈ reservedUsernames := by
                rcases hbad with hb | hb
                · rw [hcs] at hb; cases hb
                · exact hb
              exact ⟨"Username is reserved",
                by simp [registerAuthRoutes, hc1, hc2, hcs, hres]⟩
  · intro u e p iso d err v h
    cases e with
    | none => simp [register] at h
    | some e' =>
      cases p with
      | none => simp [register] at h
      | some p' =>
        by_cases hc1 : u = "" ∨ e' = "" ∨ p' = ""
        · simp [register, hc1] at h
        · by_cases hc2 : (jsToLower u).length < 3 ∨ 20 < (jsToLower u).length
          · simp [register, hc1, hc2] at h
          · by_cases hc3 : p'.length < 6
            · simp [register, hc1, hc2, hc3] at h
            · cases hfind : d.users.find? (fun user => user.username = jsToLower u) with
              | some w => simp [register, hc1, hc2, hc3, hfind] at h
              | none =>
                cases hfind2 : d.credentials.find?
                    (fun cred => jsToLower cred.email = jsToLower e') with
                | some w => simp [register, hc1, hc2, hc3, hfind, hfind2] at h
                | none =>
                  simp [register, hc1, hc2, hc3, hfind, hfind2] at h
                  obtain ⟨-, hv⟩ := h
                  push_neg at hc2
                  refine ⟨?_, ?_, ?_⟩
                  · rw [← hv]; omega
                  · rw [← hv]; omega
                  · rw [← hv]; exact jsToLower_noUpper u

/-- Witness for C3 (amended): a concrete successful authRoutes
registration returns a 3-20 character lowercase charset username. -/
theorem register_username_validity_witness :
    3 ≤ ("ada-1" : String).length ∧ ("ada-1" : String).length ≤ 20 ∧
      strAllChars "ada-1" lowerAllowedChar = true :=
  register_username_validity.1 "Ada-1" (some "a@x.com") (some "secret1") "H"
    [] none "ada-1" (by decide)

/-! ## C9 -/

theorem updateFirst_append {α : Type} (p : α → Bool) (f : α → α)
    (l1 : List α) (a : α) (l2 : List α)
    (h : ∀ x ∈ l1, p x = false) (ha : p a = true) :
    updateFirst p f (l1 ++ a :: l2) = l1 ++ f a :: l2 := by
  induction l1 with
  | nil => simp [updateFirst, ha]
  | cons x xs ih =>
    have hx := h x (List.mem_cons_self x xs)
    simp only [List.cons_append, updateFirst, hx, Bool.false_eq_true, if_false,
      List.cons.injEq, true_and]
    exact ih (fun y hy => h y (List.mem_cons_of_mem x hy))

theorem views_le_updateFirst (p : UserProfile → Bool) (iso : String)
    (l : List UserProfile) :
    List.Forall₂ (fun (a b : UserProfile) => a.profileViews ≤ b.profileViews) l
      (updateFirst p
        (fun u => { u with profileViews := u.profileViews + 1, lastUpdated := iso }) l) := by
  induction l with
  | nil => exact List.Forall₂.nil
  | cons x xs ih =>
    by_cases hx : p x = true
    · simp only [updateFirst, hx, if_true]
      exact List.Forall₂.cons (by simp) (List.forall₂_same.mpr fun y _ => le_refl _)
    · simp only [updateFirst, hx, if_false]
      exact List.Forall₂.cons (le_refl _) ih

/-- C9 counterexample: a profile with username "auth" exists in the store
(src/server.js's register happily creates it, since it has no
reserved-name check), yet `GET /auth` answers the skip-guard's bare 404
and leaves its `profileViews` at 0 instead of incrementing it. -/
theorem getProfile_skips_existing_user :
    getProfile "auth" "t" ⟨[⟨1, "auth", "auth", "c", 0, "c"⟩], []⟩ =
      (.notFoundSkip, ⟨[⟨1, "auth", "auth", "c", 0, "c"⟩], []⟩)
    ∧ (⟨[⟨1, "auth", "auth", "c", 0, "c"⟩], []⟩ : ApiData).users.find?
        (fun u => u.username = jsToLower "auth") =
        some ⟨1, "auth", "auth", "c", 0, "c"⟩ := by decide

/-- C9 (amended): the route `GET /:username` increments exactly the matched user's
`profileViews` by 1 whenever the raw path parameter passes the
static/reserved guard (no `.`, not one of auth/user/login/data/account/
api) and a user with the lowercased name exists; no store-mutating
operation (profile view or registration) ever decreases any existing
profile's `profileViews`; for an absent username the route returns the
404 page and changes nothing; for a guard-matching parameter it returns
404 and changes nothing — even when a user of that name exists. -/
theorem getProfile_spec :
    (∀ (uname iso : String) (d : ApiData) (user : UserProfile),
      ¬ (strContainsChar uname '.' ∨ uname ∈ skipNames) →
      d.users.find? (fun u => u.username = jsToLower uname) = some user →
      (getProfile uname iso d).1 = .page user.«alias» (user.profileViews + 1) ∧
      (getProfile uname iso d).2.credentials = d.credentials ∧
      ∃ pre post, d.users = pre ++ user :: post ∧
        (∀ w ∈ pre, ¬ w.username = jsToLower uname) ∧
        (getProfile uname iso d).2.users =
          pre ++
            { user with profileViews := user.profileViews + 1, lastUpdated := iso } ::
            post)
    ∧ (∀ (uname iso : String) (d : ApiData),
      List.Forall₂ (fun (a b : UserProfile) => a.profileViews ≤ b.profileViews)
        d.users (getProfile uname iso d).2.users)
    ∧ (∀ (username email password : Option String) (iso : String) (d : ApiData),
      ∃ extra, (register username email password iso d).2.users = d.users ++ extra)
    ∧ (∀ (uname iso : String) (d : ApiData),
      ¬ (strContainsChar uname '.' ∨ uname ∈ skipNames) →
      d.users.find? (fun u => u.username = jsToLower uname) = none →
      getProfile uname iso d = (.notFoundHtml (jsToLower uname), d))
    ∧ (∀ (uname iso : String) (d : ApiData),
      strContainsChar uname '.' ∨ uname ∈ skipNames →
      getProfile uname iso d = (.notFoundSkip, d)) := by
  refine ⟨?_, ?_, ?_, ?_, ?_⟩
  · intro uname iso d user hguard hfind
    have hg : getProfile uname iso d =
        ((.page user.«alias» (user.profileViews + 1)),
         ⟨updateFirst (fun u => u.username = jsToLower uname)
            (fun u => { u with profileViews := u.profileViews + 1, lastUpdated := iso })
            d.users,
          d.credentials⟩) := by
      simp [getProfile, hguard, hfind]
    obtain ⟨hp, pre, post, heq, hpre⟩ := List.find?_eq_some.mp hfind
    have hpre' : ∀ w ∈ pre, (fun u : UserProfile =>
        decide (u.username = jsToLower uname)) w = false := by
      intro w hw
      have := hpre w hw
      simpa using this
    refine ⟨by rw [hg], by rw [hg], pre, post, heq, ?_, ?_⟩
    · intro w hw
      have := hpre' w hw
      simpa using this
    · rw [hg]
      show updateFirst _ _ d.users = _
      rw [heq]
      exact updateFirst_append _ _ pre user post hpre' hp
  · intro uname iso d
    by_cases hguard : strContainsChar uname '.' ∨ uname ∈ skipNames
    · simp only [getProfile, if_pos hguard]
      exact List.forall₂_same.mpr fun y _ => le_refl _
    · cases hfind : d.users.find? (fun u => u.username = jsToLower uname) with
      | none =>
        simp [getProfile, hguard, hfind]
      | some user =>
        simp only [getProfile, if_neg hguard, hfind]
        exact views_le_updateFirst _ iso d.users
  · intro username email password iso d
    cases username with
    | none => exact ⟨[], by simp [register]⟩
    | some u =>
      cases email with
      | none => exact ⟨[], by simp [register]⟩
      | some e =>
        cases password with
        | none => exact ⟨[], by simp [register]⟩
        | some p =>
          by_cases hc1 : u = "" ∨ e = "" ∨ p = ""
          · exact ⟨[], by simp [register, hc1]⟩
          · by_cases hc2 : (jsToLower u).length < 3 ∨ 20 < (jsToLower u).length
            · exact ⟨[], by simp [register, hc1, hc2]⟩
            · by_cases hc3 : p.length < 6
              · exact ⟨[], by simp [register, hc1, hc2, hc3]⟩
              · cases hf1 : d.users.find? (fun user => user.username = jsToLower u) with
                | some w => exact ⟨[], by simp [register, hc1, hc2, hc3, hf1]⟩
                | none =>
                  cases hf2 : d.credentials.find?
                      (fun cred => jsToLower cred.email = jsToLower e) with
                  | some w => exact ⟨[], by simp [register, hc1, hc2, hc3, hf1, hf2]⟩
                  | none =>
                    exact ⟨[⟨d.users.length + 1, jsToLower u, jsToLower u, iso, 0, iso⟩],
                      by simp [register, hc1, hc2, hc3, hf1, hf2]⟩
  · intro uname iso d hguard hfind
    simp [getProfile, hguard, hfind]
  · intro uname iso d hguard
    simp [getProfile, hguard]

/-- Witness for C9 (amended): a concrete hit renders the page with the
incremented view count. -/
theorem getProfile_spec_witness :
    (getProfile "ada" "t" ⟨[⟨1, "ada", "ada", "c", 5, "c"⟩], []⟩).1 =
      .page "ada" 6 :=
  (getProfile_spec.1 "ada" "t" ⟨[⟨1, "ada", "ada", "c", 5, "c"⟩], []⟩
    ⟨1, "ada", "ada", "c", 5, "c"⟩ (by decide) (by decide)).1

end Brook
